import Mathlib

/-!
Shallow embedding of `main.ipynb` from the
Sarcasm-detection-chatbot-with-multimodal-deep-learning-aproaches
repository: a dual-encoder (BERT + RoBERTa) sarcasm classifier.

The script tokenizes a CSV of comments with both tokenizers at
`max_seq_length = 70`, splits the five parallel arrays with one call to
`train_test_split`, builds a Keras graph whose two `Lambda` branches
extract the BERT pooled output and the RoBERTa first-token hidden state,
concatenates them (`combined_embedding`, width 1536), adds a
Dense(128)/Dropout/Dense(64)/Dropout/Dense(1, sigmoid) head, fine-tunes
with `ReduceLROnPlateau` and `EarlyStopping` callbacks, then taps
`combined_embedding` as `embedding_extractor`, fits an sklearn
`MLPClassifier` on the extracted train embeddings, and serves
`predict_sarcasm` via Gradio.

The pretrained encoders and tokenizers are external collaborators; they
are modelled as abstract function parameters.  Numeric values are exact
rationals (and reals where the sigmoid/log formulas of the Keras head
require them) rather than IEEE floats.
-/

namespace Sarcasm

/-- The configured maximum sequence length, `max_seq_length = 70`
(main.ipynb line 20). -/
def max_seq_length : ℕ := 70

/-- Output of a pretrained encoder on one input: the pooled vector and the
per-token hidden vectors of the last hidden state (the external contract
`encoder.forward(ids, mask) -> (pooled_vector, per-token_vectors)`). -/
structure EncoderOutput (α : Type) where
  pooler_output : List α
  last_hidden_state : List (List α)

/-- An encoder collaborator: token ids and attention mask to an output. -/
def Encoder (α : Type) : Type := List ℕ → List ℕ → EncoderOutput α

/-- The function `bert_branch` (main.ipynb lines 74-77): run the BERT
model and return `outputs.pooler_output`. -/
def bert_branch {α : Type} (bert_model : Encoder α)
    (input_ids attention_mask : List ℕ) : List α :=
  (bert_model input_ids attention_mask).pooler_output

/-- The function `roberta_branch` (main.ipynb lines 86-89): run the
RoBERTa model and return `outputs.last_hidden_state[:, 0, :]`, the
first-token (CLS) hidden vector. -/
def roberta_branch {α : Type} (roberta_model : Encoder α)
    (input_ids attention_mask : List ℕ) : List α :=
  (roberta_model input_ids attention_mask).last_hidden_state.getD 0 []

/-- The fusion layer `Concatenate()([bert_output, roberta_output])`
(main.ipynb line 94): plain concatenation, BERT branch first. -/
def fuse {α : Type} (vecA vecB : List α) : List α :=
  vecA ++ vecB

/-- The `combined_embedding` graph node (main.ipynb line 94) as a function
of the two encoder collaborators and the four model inputs. -/
def combined_embedding {α : Type} (bert_model roberta_model : Encoder α)
    (bert_ids bert_mask roberta_ids roberta_mask : List ℕ) : List α :=
  fuse (bert_branch bert_model bert_ids bert_mask)
       (roberta_branch roberta_model roberta_ids roberta_mask)

/-! ### The script as an ordered sequence of stages

`main.ipynb` is a single straight-line script; its execution order is the
order of its numbered sections.  `mainScript` lists those sections in
source order, and execution after `k` steps is the `k`-prefix of the
list. -/

/-- The numbered sections of `main.ipynb`, in declaration order. -/
inductive Step where
  | loadData          -- section 1, lines 14-18
  | tokenizeTexts     -- section 2, lines 22-33
  | splitDataset      -- section 3, lines 36-57
  | buildEnsemble     -- section 4, lines 60-108
  | compileAndFit     -- section 5, lines 111-128 (`ensemble_model.fit`)
  | buildExtractor    -- section 6, lines 132-135 (`embedding_extractor`)
  | extractTrainEmb   -- section 6, lines 136-139
  | extractTestEmb    -- section 6, lines 140-143
  | fitMLP            -- section 7, lines 150-152 (`mlp_clf.fit`)
  | evaluateMLP       -- section 8, lines 155-169
  | plotResults       -- section 9, lines 172-189
  | launchDemo        -- Gradio UI, lines 192-221
deriving DecidableEq, Repr

/-- The whole script, in source order. -/
def mainScript : List Step :=
  [Step.loadData, Step.tokenizeTexts, Step.splitDataset, Step.buildEnsemble,
   Step.compileAndFit, Step.buildExtractor, Step.extractTrainEmb,
   Step.extractTestEmb, Step.fitMLP, Step.evaluateMLP, Step.plotResults,
   Step.launchDemo]

/-- Stage 1 (end-to-end fine-tuning) has reached its terminal state in a
given execution prefix iff `ensemble_model.fit` has run. -/
def stage1Complete (executed : List Step) : Prop :=
  Step.compileAndFit ∈ executed

instance (executed : List Step) : Decidable (stage1Complete executed) := by
  unfold stage1Complete; infer_instance

/-- The embedding extractor exists in a given execution prefix iff the
`embedding_extractor = Model(...)` statement has run. -/
def extractorExists (executed : List Step) : Prop :=
  Step.buildExtractor ∈ executed

instance (executed : List Step) : Decidable (extractorExists executed) := by
  unfold extractorExists; infer_instance

/-- The Stage-2 operations: embedding extraction over the train and test
partitions and the secondary-classifier fit. -/
def isStage2Op (s : Step) : Prop :=
  s = Step.buildExtractor ∨ s = Step.extractTrainEmb ∨
  s = Step.extractTestEmb ∨ s = Step.fitMLP

instance (s : Step) : Decidable (isStage2Op s) := by
  unfold isStage2Op; infer_instance

/-! ### Train/test split (main.ipynb lines 38-44)

The script calls sklearn's `train_test_split(X_ids_bert, X_mask_bert,
X_ids_roberta, X_mask_roberta, labels, test_size=0.2, random_state=42)`.
sklearn draws one permutation of the row indices from the seeded RNG,
takes the first `n_test` permuted indices as the test rows and the rest
as the train rows, and applies the same two index lists to every array
passed in.  The permutation is the external RNG's output, so it is a
parameter here. -/

/-- Rows of `xs` at the positions listed in `idx` (in that order). -/
def selectRows {α : Type} (xs : List α) (idx : List ℕ) : List α :=
  idx.filterMap (fun i => xs.get? i)

/-- Train and test parts of one array after the split. -/
structure SplitResult (α : Type) where
  train : List α
  test : List α

/-- Modelled sklearn `train_test_split` applied to one array: with the
drawn permutation `perm` of row indices and `nTest` test rows, the test
part is the rows at the first `nTest` permuted indices and the train part
the rows at the remaining permuted indices.  Every array in one call is
split with the same `perm`. -/
def train_test_split_one {α : Type} (perm : List ℕ) (nTest : ℕ)
    (xs : List α) : SplitResult α :=
  ⟨selectRows xs (perm.drop nTest), selectRows xs (perm.take nTest)⟩

/-! ### Tokenization (main.ipynb lines 27-29 and 196-204)

The external tokenizers are abstract functions from text to raw token
ids; the call `tokenizer(text, truncation=True, padding='max_length',
max_length=max_len)` truncates to `max_len` and pads to exactly
`max_len`, with an attention mask of 1 on real tokens and 0 on padding. -/

/-- An external tokenizer collaborator: raw token ids for a text. -/
def Tokenizer : Type := String → List ℕ

/-- The function `tokenize_for_model` (main.ipynb lines 27-29): truncate
the raw ids to `maxLen`, pad with `padId` up to `maxLen`, and build the
parallel attention mask. -/
def tokenize_for_model (tok : Tokenizer) (padId : ℕ) (text : String)
    (maxLen : ℕ) : List ℕ × List ℕ :=
  let kept := (tok text).take maxLen
  (kept ++ List.replicate (maxLen - kept.length) padId,
   List.replicate kept.length 1 ++ List.replicate (maxLen - kept.length) 0)

/-! ### The secondary MLP classifier (main.ipynb lines 151-156)

`MLPClassifier(hidden_layer_sizes=(128, 64), max_iter=1000,
learning_rate_init=1e-3, random_state=42)`, fitted on the extracted
train embeddings.  The optimizer internals are sklearn's; what the
script fixes is the configuration, the iteration cap, and that `predict`
thresholds the logistic output, returning a class from {0, 1}. -/

/-- Constructor arguments of the `MLPClassifier` instance. -/
structure MLPConfig where
  hidden_layer_sizes : List ℕ
  max_iter : ℕ
  learning_rate_init : ℚ
  random_state : Option ℕ

/-- The configuration of `mlp_clf` (main.ipynb line 151). -/
def mlp_clf : MLPConfig :=
  { hidden_layer_sizes := [128, 64], max_iter := 1000,
    learning_rate_init := 1 / 1000, random_state := some 42 }

/-- Dot product of two lists (extra entries of the longer list ignored,
as with fixed-shape arrays the lengths agree). -/
def dotP {α : Type} [Mul α] [AddCommMonoid α] (u v : List α) : α :=
  ((u.zip v).map (fun p => p.1 * p.2)).sum

/-- One dense layer: each row of `W` paired with its bias, activation
applied to the affine value. -/
def denseP {α : Type} [Mul α] [AddCommMonoid α]
    (W : List (List α)) (b : List α) (act : α → α) (v : List α) : List α :=
  (W.zip b).map (fun rb => act (rb.2 + dotP rb.1 v))

/-- Rectified linear activation. -/
def reluP {α : Type} [LinearOrder α] [Zero α] (x : α) : α := max 0 x

/-- Weights of the fitted MLP: two hidden layers and the binary output
unit. -/
structure MLPWeights where
  W1 : List (List ℚ)
  b1 : List ℚ
  W2 : List (List ℚ)
  b2 : List ℚ
  wOut : List ℚ
  bOut : ℚ

/-- Pre-activation decision value of the fitted MLP on one embedding:
two ReLU hidden layers then the affine output (sklearn applies the
logistic function to this value to get the class-1 probability). -/
def mlpDecision (w : MLPWeights) (emb : List ℚ) : ℚ :=
  let h1 := denseP w.W1 w.b1 reluP emb
  let h2 := denseP w.W2 w.b2 reluP h1
  w.bOut + dotP w.wOut h2

/-- The call `mlp_clf.predict` on one embedding: threshold the logistic
output at 1/2, i.e. the pre-activation at 0; the classes seen in `fit`
are 0 and 1. -/
def mlpPredict (w : MLPWeights) (emb : List ℚ) : ℕ :=
  if 0 < mlpDecision w emb then 1 else 0

/-- Fuel-bounded iterative fitting loop: apply `update` until
`converged` or the fuel runs out, returning the final state and the
number of iterations performed. -/
def iterateFit {S : Type} (update : S → S) (converged : S → Bool) :
    ℕ → S → S × ℕ
  | 0, s => (s, 0)
  | n + 1, s =>
    if converged s then (s, 0)
    else ((iterateFit update converged n (update s)).1,
          (iterateFit update converged n (update s)).2 + 1)

/-- The call `mlp_clf.fit`: iterative gradient-based optimization capped
at `mlp_clf.max_iter` iterations. -/
def mlpFit {S : Type} (update : S → S) (converged : S → Bool) (s0 : S) :
    S × ℕ :=
  iterateFit update converged mlp_clf.max_iter s0

/-- The rows of train embeddings extracted for Stage 2 (main.ipynb lines
136-139): one joint embedding per row of the four parallel token arrays. -/
def train_embeddings (bm rm : Encoder ℚ)
    (rows : List (List ℕ × List ℕ × List ℕ × List ℕ)) : List (List ℚ) :=
  rows.map (fun r => combined_embedding bm rm r.1 r.2.1 r.2.2.1 r.2.2.2)

/-- Stage 2 of the training protocol: fit the secondary classifier on
the extracted embeddings and the labels — the fitting algorithm sees
only the embeddings, never the raw token arrays. -/
def stage2_fit {S : Type} (fitAlgo : List (List ℚ) → List ℕ → S)
    (bm rm : Encoder ℚ)
    (rows : List (List ℕ × List ℕ × List ℕ × List ℕ)) (y : List ℕ) : S :=
  fitAlgo (train_embeddings bm rm rows) y

/-! ### The inference pipeline (main.ipynb lines 195-211)

`predict_sarcasm` tokenizes the text with both tokenizers at
`max_seq_length`, runs `embedding_extractor.predict`, then
`mlp_clf.predict`, and maps the class to one of two strings.  The Keras
model rejects inputs whose shape differs from the declared
`(max_seq_length,)` inputs; that shape check is the failure mode, made
explicit with `Option`. -/

/-- The call `embedding_extractor.predict` on one sample: the four
inputs must have the declared length `max_seq_length`; the output is the
joint `combined_embedding`. -/
def embedding_extractor_predictQ (bm rm : Encoder ℚ)
    (bIds bMask rIds rMask : List ℕ) : Option (List ℚ) :=
  if bIds.length = max_seq_length ∧ bMask.length = max_seq_length ∧
     rIds.length = max_seq_length ∧ rMask.length = max_seq_length then
    some (combined_embedding bm rm bIds bMask rIds rMask)
  else none

/-- The function `predict_sarcasm` (main.ipynb lines 195-211): tokenize
with each encoder's own tokenizer at `max_seq_length`, extract the joint
embedding, classify with the fitted MLP, and render the binary class as
one of two strings. -/
def predict_sarcasm (bert_tokenizer roberta_tokenizer : Tokenizer)
    (bPad rPad : ℕ) (bm rm : Encoder ℚ) (w : MLPWeights)
    (text : String) : Option String :=
  let encB := tokenize_for_model bert_tokenizer bPad text max_seq_length
  let encR := tokenize_for_model roberta_tokenizer rPad text max_seq_length
  (embedding_extractor_predictQ bm rm encB.1 encB.2 encR.1 encR.2).map
    (fun emb =>
      if mlpPredict w emb = 1 then "Sarcastic😏" else "Not Sarcastic😊")

/-! ### Stage-1 training loop with callbacks (main.ipynb lines 111-128)

The script fine-tunes with
`ReduceLROnPlateau(monitor='val_loss', factor=0.5, patience=2)` and
`EarlyStopping(monitor='val_loss', patience=4, restore_best_weights=True)`
over `epochs=1`.  Both Keras callbacks run on the validation loss at the
end of every epoch: the plateau callback halves the learning rate after
`patience` consecutive non-improving epochs (improvement means dropping
below the best seen by more than its `min_delta`, default 1e-4), and the
early stopper records the best-loss weights and stops training after its
own `patience` consecutive non-improving epochs (its `min_delta` is 0),
restoring the recorded best weights at the end when
`restore_best_weights` is set.  The per-epoch validation losses and the
weights at the end of each epoch are external to the callbacks and are
parameters of the loop. -/

/-- Configuration of `ensemble_model.fit` and its two callbacks
(main.ipynb lines 118-128). -/
structure FitConfig where
  lr0 : ℚ                -- Adam initial learning rate
  factor : ℚ             -- ReduceLROnPlateau factor
  lrPatience : ℕ         -- ReduceLROnPlateau patience
  lrDelta : ℚ            -- ReduceLROnPlateau min_delta
  esPatience : ℕ         -- EarlyStopping patience
  restore_best_weights : Bool
  epochs : ℕ             -- epoch budget of fit

/-- The configuration the script ships: learning rate 3e-5, factor 0.5,
LR patience 2 (min_delta 1e-4, the Keras default), stopping patience 4
with restore_best_weights, epochs=1. -/
def shippedFit : FitConfig :=
  { lr0 := 3 / 100000, factor := 1 / 2, lrPatience := 2,
    lrDelta := 1 / 10000, esPatience := 4, restore_best_weights := true,
    epochs := 1 }

/-- Joint state of the two callbacks during `fit`. -/
structure CallbackState (W : Type) where
  lr : ℚ                    -- current learning rate
  bestES : Option ℚ         -- best val_loss seen by EarlyStopping
  best_weights : Option W   -- weights recorded at that best epoch
  waitES : ℕ                -- EarlyStopping non-improvement counter
  stop_training : Bool      -- set when EarlyStopping fires
  bestLR : Option ℚ         -- best val_loss seen by ReduceLROnPlateau
  waitLR : ℕ                -- ReduceLROnPlateau non-improvement counter

/-- Improvement test of a monitored loss against the best so far (mode
min): any value improves on no history; otherwise the value must drop
below best minus the callback's min_delta. -/
def improves (delta : ℚ) (cur : ℚ) : Option ℚ → Bool
  | none => true
  | some b => decide (cur < b - delta)

/-- End-of-epoch action of `ReduceLROnPlateau` (cooldown 0, min_lr 0):
on improvement reset the counter; otherwise count, and once the counter
reaches the patience multiply the learning rate by the factor and reset. -/
def lrPlateauStep {W : Type} (cfg : FitConfig) (st : CallbackState W)
    (loss : ℚ) : CallbackState W :=
  if improves cfg.lrDelta loss st.bestLR then
    { st with bestLR := some loss, waitLR := 0 }
  else if cfg.lrPatience ≤ st.waitLR + 1 then
    { st with waitLR := 0, lr := st.lr * cfg.factor }
  else
    { st with waitLR := st.waitLR + 1 }

/-- End-of-epoch action of `EarlyStopping` (min_delta 0): on improvement
record the loss and the current weights and reset the counter; otherwise
count, and once the counter reaches the patience set `stop_training`. -/
def earlyStopStep {W : Type} (cfg : FitConfig) (st : CallbackState W)
    (loss : ℚ) (wEnd : W) : CallbackState W :=
  if improves 0 loss st.bestES then
    { st with bestES := some loss, best_weights := some wEnd, waitES := 0 }
  else if cfg.esPatience ≤ st.waitES + 1 then
    { st with waitES := st.waitES + 1, stop_training := true }
  else
    { st with waitES := st.waitES + 1 }

/-- One training epoch as the callbacks see it: both policies run on the
same end-of-epoch validation loss. -/
def epochStep {W : Type} (cfg : FitConfig) (st : CallbackState W)
    (loss : ℚ) (wEnd : W) : CallbackState W :=
  earlyStopStep cfg (lrPlateauStep cfg st loss) loss wEnd

/-- Callback state before the first epoch. -/
def initState {W : Type} (cfg : FitConfig) : CallbackState W :=
  { lr := cfg.lr0, bestES := none, best_weights := none, waitES := 0,
    stop_training := false, bestLR := none, waitLR := 0 }

/-- The epoch loop of `fit` from epoch `e` with `n` epochs of budget
left: run an epoch, halt when early stopping fires, and return the final
callback state together with the number of epochs run. -/
def fitFrom {W : Type} (cfg : FitConfig) (losses : ℕ → ℚ) (w : ℕ → W) :
    ℕ → ℕ → CallbackState W → CallbackState W × ℕ
  | 0, e, st => (st, e)
  | n + 1, e, st =>
    if (epochStep cfg st (losses e) (w e)).stop_training then
      (epochStep cfg st (losses e) (w e), e + 1)
    else fitFrom cfg losses w n (e + 1) (epochStep cfg st (losses e) (w e))

/-- The call `ensemble_model.fit` (main.ipynb lines 121-128): run the
epoch loop over the whole budget, given the per-epoch validation losses
and end-of-epoch weights. -/
def ensemble_fit {W : Type} (cfg : FitConfig) (losses : ℕ → ℚ)
    (w : ℕ → W) : CallbackState W × ℕ :=
  fitFrom cfg losses w cfg.epochs 0 (initState cfg)

/-- Weights held by the model when `fit` returns (`w0` being the weights
before the first epoch): the recorded best weights when early stopping
fired with restore_best_weights, the last epoch's weights otherwise. -/
def final_weights {W : Type} (cfg : FitConfig) (losses : ℕ → ℚ)
    (w : ℕ → W) (w0 : W) : W :=
  let r := ensemble_fit cfg losses w
  if r.1.stop_training ∧ cfg.restore_best_weights then
    r.1.best_weights.getD w0
  else if r.2 = 0 then w0
  else w (r.2 - 1)

/-- Some epoch `k` among the first `upTo` attains the minimum validation
loss of those epochs. -/
def BestObserved (losses : ℕ → ℚ) (upTo k : ℕ) : Prop :=
  k < upTo ∧ ∀ j < upTo, losses k ≤ losses j

/-- Loop invariant of the epoch loop: either no epoch has run yet, or
the early stopper's recorded best is the weights of a minimum-loss epoch
among those run. -/
def ESInv {W : Type} (losses : ℕ → ℚ) (w : ℕ → W) (e : ℕ)
    (st : CallbackState W) : Prop :=
  (e = 0 ∧ st.bestES = none ∧ st.best_weights = none ∧
    st.stop_training = false) ∨
  (∃ k, k < e ∧ st.bestES = some (losses k) ∧
    st.best_weights = some (w k) ∧ ∀ j < e, losses k ≤ losses j)

/-- A small fit configuration (both patiences 1, two-epoch budget) used
to exercise the callback behaviour on a concrete run. -/
def demoFit : FitConfig :=
  { lr0 := 1, factor := 1 / 2, lrPatience := 1, lrDelta := 0,
    esPatience := 1, restore_best_weights := true, epochs := 2 }

/-- A concrete callback state at the LR plateau patience. -/
def demoState : CallbackState ℕ :=
  { lr := 1, bestES := some 1, best_weights := some 0, waitES := 0,
    stop_training := false, bestLR := some 1, waitLR := 1 }

/-- A concrete validation-loss history that improves once and then
plateaus, so early stopping fires. -/
def demoLosses : ℕ → ℚ := fun e => if e = 0 then 1 else 2

/-! ### The real-valued model graph (main.ipynb lines 62-107)

The Keras graph over real numbers: the two encoder branches, the
concatenation, and the Dense(128, relu) / Dropout(0.3) / Dense(64, relu)
/ Dropout(0.3) / Dense(1, sigmoid) head.  Dropout keeps each unit with
its Bernoulli mask (a parameter here, drawn by the framework) and
rescales by 1/(1-rate) during training; it is the identity when not
training.  `embedding_extractor` (lines 132-135) is a second `Model`
over the same graph whose output is the `combined_embedding` node, and
`predict` runs the graph with `training=False`. -/

/-- Real sigmoid activation of the output unit. -/
noncomputable def sigmoid (x : ℝ) : ℝ := 1 / (1 + Real.exp (-x))

/-- Keras `Dropout(rate)` on one vector: during training, units with a
false mask entry are zeroed and the rest rescaled by 1/(1-rate); outside
training it is the identity. -/
noncomputable def dropout (rate : ℝ) (mask : List Bool) (training : Bool)
    (v : List ℝ) : List ℝ :=
  if training then
    (v.zip mask).map (fun p => if p.2 then p.1 / (1 - rate) else 0)
  else v

/-- Weights of the fine-tuning head: Dense(128), Dense(64), Dense(1). -/
structure HeadWeights where
  W1 : List (List ℝ)
  b1 : List ℝ
  W2 : List (List ℝ)
  b2 : List ℝ
  W3 : List (List ℝ)
  b3 : List ℝ

/-- Shapes declared by the head layers: 128 then 64 units, then the
single output unit. -/
def HeadShaped (hw : HeadWeights) : Prop :=
  hw.W1.length = 128 ∧ hw.b1.length = 128 ∧
  hw.W2.length = 64 ∧ hw.b2.length = 64 ∧
  hw.W3.length = 1 ∧ hw.b3.length = 1

/-- The named tensors of the ensemble graph (main.ipynb lines 74-101). -/
structure ModelNodes where
  bert_output : List ℝ
  roberta_output : List ℝ
  combined : List ℝ       -- the combined_embedding node
  hidden1 : List ℝ        -- Dense(128, relu)
  dropped1 : List ℝ       -- Dropout(0.3)
  hidden2 : List ℝ        -- Dense(64, relu)
  dropped2 : List ℝ       -- Dropout(0.3)
  classifier_output : List ℝ  -- Dense(1, sigmoid)

/-- One forward pass of the ensemble graph on one sample. -/
noncomputable def modelNodes (bert_model roberta_model : Encoder ℝ)
    (hw : HeadWeights) (training : Bool) (mask1 mask2 : List Bool)
    (bIds bMask rIds rMask : List ℕ) : ModelNodes :=
  let bo := bert_branch bert_model bIds bMask
  let ro := roberta_branch roberta_model rIds rMask
  let ce := fuse bo ro
  let h1 := denseP hw.W1 hw.b1 reluP ce
  let d1 := dropout (3 / 10) mask1 training h1
  let h2 := denseP hw.W2 hw.b2 reluP d1
  let d2 := dropout (3 / 10) mask2 training h2
  let co := denseP hw.W3 hw.b3 sigmoid d2
  ⟨bo, ro, ce, h1, d1, h2, d2, co⟩

/-- The output of `embedding_extractor.predict` on one sample
(main.ipynb lines 132-143): the `combined_embedding` node of the same
graph, run with `training=False` (so no dropout mask is drawn). -/
noncomputable def embedding_extractor_output
    (bm rm : Encoder ℝ) (hw : HeadWeights)
    (bIds bMask rIds rMask : List ℕ) : List ℝ :=
  (modelNodes bm rm hw false [] [] bIds bMask rIds rMask).combined

/-- Loss functions nameable in `compile`. -/
inductive KerasLoss where
  | binaryCrossentropy
  | mse
deriving DecidableEq

/-- Per-sample formula of each loss on a true label and a prediction. -/
noncomputable def KerasLoss.denote : KerasLoss → ℝ → ℝ → ℝ
  | .binaryCrossentropy =>
      fun y p => -(y * Real.log p + (1 - y) * Real.log (1 - p))
  | .mse => fun y p => (y - p) ^ 2

/-- Arguments of `ensemble_model.compile` (main.ipynb lines 112-115). -/
structure CompileConfig where
  learning_rate : ℚ
  loss : KerasLoss
  metrics : List String

/-- The compile configuration the script uses: Adam at 3e-5, binary
cross-entropy, accuracy metric. -/
def ensemble_compile : CompileConfig :=
  { learning_rate := 3 / 100000, loss := KerasLoss.binaryCrossentropy,
    metrics := ["accuracy"] }

/-- A concrete constant rational encoder used in witnesses. -/
def demoEncoderQ : Encoder ℚ := fun _ _ => ⟨[1], [[2]]⟩

/-- A concrete constant real encoder used in witnesses. -/
noncomputable def demoEncoderR : Encoder ℝ := fun _ _ =>
  ⟨List.replicate 768 0, [List.replicate 768 0]⟩

/-- Concrete zero head weights with the declared layer shapes. -/
noncomputable def demoHead : HeadWeights :=
  { W1 := List.replicate 128 (List.replicate 1536 (0 : ℝ)),
    b1 := List.replicate 128 0,
    W2 := List.replicate 64 (List.replicate 128 (0 : ℝ)),
    b2 := List.replicate 64 0,
    W3 := [List.replicate 64 (0 : ℝ)],
    b3 := [0] }

/-! ## Theorems -/

/-- Indexing into selected rows: when every index is in range, position
`j` of the selection is the original row at the `j`-th index. -/
theorem selectRows_getElem {α : Type} (xs : List α) (idx : List ℕ)
    (hv : ∀ i ∈ idx, i < xs.length) (j : ℕ) :
    (selectRows xs idx)[j]? = idx[j]?.bind (fun i => xs[i]?) := by
  induction idx generalizing j with
  | nil => simp [selectRows]
  | cons i is ih =>
    have hi : i < xs.length := hv i (by simp)
    have hget : xs[i]? = some xs[i] := List.getElem?_eq_getElem hi
    have hsel : selectRows xs (i :: is) = xs[i] :: selectRows xs is := by
      simp [selectRows, List.filterMap_cons, hget]
    cases j with
    | zero => simp [hsel, hget]
    | succ j =>
      simpa [hsel] using ih (fun i2 hi2 => hv i2 (by simp [hi2])) j

/-- Both sequences produced by `tokenize_for_model` have exactly the
requested length. -/
theorem tokenize_for_model_length (tok : Tokenizer) (padId : ℕ)
    (text : String) (maxLen : ℕ) :
    (tokenize_for_model tok padId text maxLen).1.length = maxLen ∧
    (tokenize_for_model tok padId text maxLen).2.length = maxLen := by
  have h : ((tok text).take maxLen).length ≤ maxLen := by
    simp [List.length_take]
  constructor
  · simp only [tokenize_for_model, List.length_append, List.length_replicate]
    omega
  · simp only [tokenize_for_model, List.length_append, List.length_replicate]
    omega

/-- C1: Stage 2 (embedding extraction and secondary-classifier fitting)
begins only after Stage 1 (the `ensemble_model.fit` fine-tuning) has
reached its terminal state: in every execution prefix of the script, the
embedding extractor exists only if Stage 1 has completed, and every
Stage-2 operation in the prefix implies Stage 1 completed in it. -/
theorem stage2_only_after_stage1 (k : ℕ) :
    (extractorExists (mainScript.take k) →
      stage1Complete (mainScript.take k)) ∧
    (∀ s ∈ mainScript.take k, isStage2Op s →
      stage1Complete (mainScript.take k)) := by
  rcases le_or_lt k mainScript.length with h | h
  · have hk : k ≤ 12 := by simpa [mainScript] using h
    interval_cases k <;> decide
  · rw [List.take_of_length_le (le_of_lt h)]
    decide

/-- Witness for C1: after all twelve script sections the extractor
exists, and the ordering theorem yields that Stage 1 completed. -/
theorem stage2_only_after_stage1_witness :
    extractorExists (mainScript.take 12) ∧
    stage1Complete (mainScript.take 12) :=
  ⟨by decide, (stage2_only_after_stage1 12).1 (by decide)⟩

/-- C2: the fusion is plain concatenation with the BERT branch first:
for 768-wide branch vectors the joint embedding has width 1536, its
first 768 components are the BERT vector and its last 768 the RoBERTa
vector; and the training graph's `combined_embedding` node, the
embedding extractor, and the inference path all compute this same
`fuse` of BERT branch followed by RoBERTa branch. -/
theorem fusion_concat_width (vecA vecB : List ℚ)
    (hA : vecA.length = 768) (hB : vecB.length = 768) :
    (fuse vecA vecB).length = 1536 ∧
    (fuse vecA vecB).take 768 = vecA ∧
    (fuse vecA vecB).drop 768 = vecB ∧
    (∀ (bm rm : Encoder ℚ) i1 i2 i3 i4,
       combined_embedding bm rm i1 i2 i3 i4 =
         fuse (bert_branch bm i1 i2) (roberta_branch rm i3 i4)) ∧
    (∀ (bm rm : Encoder ℝ) (hw : HeadWeights) (t : Bool)
       (m1 m2 : List Bool) (i1 i2 i3 i4 : List ℕ),
       (modelNodes bm rm hw t m1 m2 i1 i2 i3 i4).combined =
         fuse (bert_branch bm i1 i2) (roberta_branch rm i3 i4)) ∧
    (∀ (bm rm : Encoder ℝ) (hw : HeadWeights) (i1 i2 i3 i4 : List ℕ),
       embedding_extractor_output bm rm hw i1 i2 i3 i4 =
         fuse (bert_branch bm i1 i2) (roberta_branch rm i3 i4)) ∧
    (∀ (bm rm : Encoder ℚ) (i1 i2 i3 i4 : List ℕ),
       i1.length = max_seq_length → i2.length = max_seq_length →
       i3.length = max_seq_length → i4.length = max_seq_length →
       embedding_extractor_predictQ bm rm i1 i2 i3 i4 =
         some (fuse (bert_branch bm i1 i2) (roberta_branch rm i3 i4))) := by
  refine ⟨by simp [fuse, hA, hB], ?_, ?_, fun _ _ _ _ _ _ => rfl,
    fun _ _ _ _ _ _ _ _ _ _ => rfl, fun _ _ _ _ _ _ _ => rfl,
    fun bm rm i1 i2 i3 i4 g1 g2 g3 g4 => by
      simp [embedding_extractor_predictQ, combined_embedding, g1, g2, g3, g4]⟩
  · rw [show (768 : ℕ) = vecA.length from hA.symm]
    exact List.take_left vecA vecB
  · rw [show (768 : ℕ) = vecA.length from hA.symm]
    exact List.drop_left vecA vecB

/-- Witness for C2 at concrete 768-wide vectors. -/
theorem fusion_concat_width_witness :
    ((List.replicate 768 (0 : ℚ)).length = 768 ∧
     (List.replicate 768 (1 : ℚ)).length = 768) ∧
    (fuse (List.replicate 768 (0 : ℚ))
      (List.replicate 768 (1 : ℚ))).length = 1536 :=
  ⟨⟨List.length_replicate 768 (0 : ℚ), List.length_replicate 768 (1 : ℚ)⟩,
   (fusion_concat_width (List.replicate 768 (0 : ℚ))
     (List.replicate 768 (1 : ℚ)) (List.length_replicate 768 (0 : ℚ))
     (List.length_replicate 768 (1 : ℚ))).1⟩

/-- C3: one randomized split with one row permutation drives all five
parallel arrays: each position of the train (resp. test) partition takes
the BERT ids, BERT mask, RoBERTa ids, RoBERTa mask and label from the
same original row, and the train and test row-index lists are disjoint. -/
theorem split_parallel_rows (perm : List ℕ) (nTest n : ℕ)
    (idsB maskB idsR maskR : List (List ℕ)) (labels : List ℕ)
    (hnodup : perm.Nodup) (hmem : ∀ i ∈ perm, i < n)
    (h1 : idsB.length = n) (h2 : maskB.length = n) (h3 : idsR.length = n)
    (h4 : maskR.length = n) (h5 : labels.length = n) :
    (∀ (j row : ℕ), (perm.drop nTest)[j]? = some row →
       ((train_test_split_one perm nTest idsB).train[j]? =
          idsB[row]? ∧
        (train_test_split_one perm nTest maskB).train[j]? =
          maskB[row]? ∧
        (train_test_split_one perm nTest idsR).train[j]? =
          idsR[row]? ∧
        (train_test_split_one perm nTest maskR).train[j]? =
          maskR[row]? ∧
        (train_test_split_one perm nTest labels).train[j]? =
          labels[row]?)) ∧
    (∀ (j row : ℕ), (perm.take nTest)[j]? = some row →
       ((train_test_split_one perm nTest idsB).test[j]? =
          idsB[row]? ∧
        (train_test_split_one perm nTest maskB).test[j]? =
          maskB[row]? ∧
        (train_test_split_one perm nTest idsR).test[j]? =
          idsR[row]? ∧
        (train_test_split_one perm nTest maskR).test[j]? =
          maskR[row]? ∧
        (train_test_split_one perm nTest labels).test[j]? =
          labels[row]?)) ∧
    List.Disjoint (perm.drop nTest) (perm.take nTest) := by
  have hvd : ∀ {α : Type} (xs : List α), xs.length = n →
      ∀ i ∈ perm.drop nTest, i < xs.length := by
    intro α xs hx i hi
    exact hx ▸ hmem i (List.drop_subset nTest perm hi)
  have hvt : ∀ {α : Type} (xs : List α), xs.length = n →
      ∀ i ∈ perm.take nTest, i < xs.length := by
    intro α xs hx i hi
    exact hx ▸ hmem i (List.take_subset nTest perm hi)
  refine ⟨fun j row hj => ?_, fun j row hj => ?_,
    (List.disjoint_take_drop hnodup le_rfl).symm⟩
  · exact ⟨by simp [train_test_split_one,
        selectRows_getElem _ _ (hvd _ h1), hj],
      by simp [train_test_split_one,
        selectRows_getElem _ _ (hvd _ h2), hj],
      by simp [train_test_split_one,
        selectRows_getElem _ _ (hvd _ h3), hj],
      by simp [train_test_split_one,
        selectRows_getElem _ _ (hvd _ h4), hj],
      by simp [train_test_split_one,
        selectRows_getElem _ _ (hvd _ h5), hj]⟩
  · exact ⟨by simp [train_test_split_one,
        selectRows_getElem _ _ (hvt _ h1), hj],
      by simp [train_test_split_one,
        selectRows_getElem _ _ (hvt _ h2), hj],
      by simp [train_test_split_one,
        selectRows_getElem _ _ (hvt _ h3), hj],
      by simp [train_test_split_one,
        selectRows_getElem _ _ (hvt _ h4), hj],
      by simp [train_test_split_one,
        selectRows_getElem _ _ (hvt _ h5), hj]⟩

/-- Witness for C3: a concrete three-row dataset split with the
permutation [2, 0, 1] and one test row. -/
theorem split_parallel_rows_witness :
    (([2, 0, 1] : List ℕ).Nodup ∧ (∀ i ∈ ([2, 0, 1] : List ℕ), i < 3)) ∧
    (train_test_split_one [2, 0, 1] 1
      ([[10], [11], [12]] : List (List ℕ))).train[0]? =
        ([[10], [11], [12]] : List (List ℕ))[0]? :=
  ⟨⟨by decide, by decide⟩,
   ((split_parallel_rows [2, 0, 1] 1 3 [[10], [11], [12]] [[1], [1], [1]]
      [[20], [21], [22]] [[1], [0], [1]] [0, 1, 0]
      (by decide) (by decide) rfl rfl rfl rfl rfl).1 0 0 rfl).1⟩

/-- C4: the two branches extract their whole-sequence representation
asymmetrically: the BERT branch returns the encoder's pooled output and
the RoBERTa branch returns the first-token vector of the last hidden
state, both as standalone functions and at their nodes in the ensemble
graph. -/
theorem branch_representation_asymmetry :
    (∀ (α : Type) (bm : Encoder α) (ids mask : List ℕ),
       bert_branch bm ids mask = (bm ids mask).pooler_output) ∧
    (∀ (α : Type) (rm : Encoder α) (ids mask : List ℕ),
       roberta_branch rm ids mask =
         (rm ids mask).last_hidden_state.getD 0 []) ∧
    (∀ (bm rm : Encoder ℝ) (hw : HeadWeights) (t : Bool)
       (m1 m2 : List Bool) (i1 i2 i3 i4 : List ℕ),
       (modelNodes bm rm hw t m1 m2 i1 i2 i3 i4).bert_output =
         (bm i1 i2).pooler_output ∧
       (modelNodes bm rm hw t m1 m2 i1 i2 i3 i4).roberta_output =
         (rm i3 i4).last_hidden_state.getD 0 []) :=
  ⟨fun _ _ _ _ => rfl, fun _ _ _ _ => rfl,
   fun _ _ _ _ _ _ _ _ _ _ => ⟨rfl, rfl⟩⟩

/-- C5: for every text (in particular the literal input
"oh great, another meeting"), the full inference pipeline — tokenize
with each encoder's own tokenizer at the training max length, dual
encode, fuse, secondary classifier — succeeds (the shape check passes,
nothing raises) and the predicted class is one of exactly {0, 1},
rendered as one of the two fixed strings. -/
theorem predict_sarcasm_total_binary
    (bt rt : Tokenizer) (bPad rPad : ℕ) (bm rm : Encoder ℚ)
    (w : MLPWeights) (text : String) :
    ∃ emb : List ℚ,
      embedding_extractor_predictQ bm rm
          (tokenize_for_model bt bPad text max_seq_length).1
          (tokenize_for_model bt bPad text max_seq_length).2
          (tokenize_for_model rt rPad text max_seq_length).1
          (tokenize_for_model rt rPad text max_seq_length).2 = some emb ∧
      (mlpPredict w emb = 0 ∨ mlpPredict w emb = 1) ∧
      predict_sarcasm bt rt bPad rPad bm rm w text =
        some (if mlpPredict w emb = 1 then "Sarcastic😏"
              else "Not Sarcastic😊") ∧
      (predict_sarcasm bt rt bPad rPad bm rm w text = some "Sarcastic😏" ∨
       predict_sarcasm bt rt bPad rPad bm rm w text =
         some "Not Sarcastic😊") := by
  obtain ⟨hb1, hb2⟩ := tokenize_for_model_length bt bPad text max_seq_length
  obtain ⟨hr1, hr2⟩ := tokenize_for_model_length rt rPad text max_seq_length
  set emb := combined_embedding bm rm
      (tokenize_for_model bt bPad text max_seq_length).1
      (tokenize_for_model bt bPad text max_seq_length).2
      (tokenize_for_model rt rPad text max_seq_length).1
      (tokenize_for_model rt rPad text max_seq_length).2 with hembdef
  have hext : embedding_extractor_predictQ bm rm
      (tokenize_for_model bt bPad text max_seq_length).1
      (tokenize_for_model bt bPad text max_seq_length).2
      (tokenize_for_model rt rPad text max_seq_length).1
      (tokenize_for_model rt rPad text max_seq_length).2 = some emb := by
    simp [embedding_extractor_predictQ, hb1, hb2, hr1, hr2, hembdef]
  have hps : predict_sarcasm bt rt bPad rPad bm rm w text =
      some (if mlpPredict w emb = 1 then "Sarcastic😏"
            else "Not Sarcastic😊") := by
    simp only [predict_sarcasm]
    rw [hext]
    rfl
  refine ⟨emb, hext, ?_, hps, ?_⟩
  · unfold mlpPredict
    split
    · right; rfl
    · left; rfl
  · rw [hps]
    by_cases hc : mlpPredict w emb = 1
    · left; rw [if_pos hc]
    · right; rw [if_neg hc]

/-- The LR-plateau action leaves every early-stopping field unchanged. -/
theorem lrPlateauStep_es {W : Type} (cfg : FitConfig)
    (st : CallbackState W) (loss : ℚ) :
    (lrPlateauStep cfg st loss).bestES = st.bestES ∧
    (lrPlateauStep cfg st loss).best_weights = st.best_weights ∧
    (lrPlateauStep cfg st loss).waitES = st.waitES ∧
    (lrPlateauStep cfg st loss).stop_training = st.stop_training := by
  unfold lrPlateauStep
  split
  · exact ⟨rfl, rfl, rfl, rfl⟩
  · split
    · exact ⟨rfl, rfl, rfl, rfl⟩
    · exact ⟨rfl, rfl, rfl, rfl⟩

/-- The early-stopping action leaves the learning rate unchanged. -/
theorem earlyStopStep_lr {W : Type} (cfg : FitConfig)
    (st : CallbackState W) (loss : ℚ) (wEnd : W) :
    (earlyStopStep cfg st loss wEnd).lr = st.lr := by
  unfold earlyStopStep
  split
  · rfl
  · split
    · rfl
    · rfl

/-- One epoch preserves the best-observed invariant. -/
theorem epochStep_inv {W : Type} (cfg : FitConfig) (losses : ℕ → ℚ)
    (w : ℕ → W) (e : ℕ) (st : CallbackState W)
    (h : ESInv losses w e st) :
    ESInv losses w (e + 1) (epochStep cfg st (losses e) (w e)) := by
  obtain ⟨hbes, hbw, -, -⟩ := lrPlateauStep_es cfg st (losses e)
  unfold epochStep earlyStopStep
  rcases h with ⟨he, hbES, hbW, -⟩ | ⟨k, hk, hkES, hkW, hmin⟩
  · have hcond :
        improves 0 (losses e) (lrPlateauStep cfg st (losses e)).bestES =
          true := by
      rw [hbes, hbES]; rfl
    rw [if_pos hcond]
    refine Or.inr ⟨e, Nat.lt_succ_self e, rfl, rfl, ?_⟩
    intro j hj
    have hje : j = e := by omega
    rw [hje]
  · by_cases hcond :
      improves 0 (losses e) (lrPlateauStep cfg st (losses e)).bestES = true
    · rw [if_pos hcond]
      refine Or.inr ⟨e, Nat.lt_succ_self e, rfl, rfl, ?_⟩
      have hlt : losses e < losses k := by
        rw [hbes, hkES] at hcond
        simpa [improves] using hcond
      intro j hj
      rcases Nat.lt_succ_iff_lt_or_eq.mp hj with hj2 | hj2
      · exact le_of_lt (lt_of_lt_of_le hlt (hmin j hj2))
      · rw [hj2]
    · rw [if_neg hcond]
      have hge : losses k ≤ losses e := by
        rw [hbes, hkES] at hcond
        simpa [improves, not_lt] using hcond
      have hmin2 : ∀ j < e + 1, losses k ≤ losses j := by
        intro j hj
        rcases Nat.lt_succ_iff_lt_or_eq.mp hj with hj2 | hj2
        · exact hmin j hj2
        · rw [hj2]; exact hge
      split
      · exact Or.inr ⟨k, by omega, by rw [hbes]; exact hkES,
          by rw [hbw]; exact hkW, hmin2⟩
      · exact Or.inr ⟨k, by omega, by rw [hbes]; exact hkES,
          by rw [hbw]; exact hkW, hmin2⟩

/-- The epoch loop preserves the best-observed invariant. -/
theorem fitFrom_inv {W : Type} (cfg : FitConfig) (losses : ℕ → ℚ)
    (w : ℕ → W) :
    ∀ (n e : ℕ) (st : CallbackState W), ESInv losses w e st →
      ESInv losses w (fitFrom cfg losses w n e st).2
        (fitFrom cfg losses w n e st).1 := by
  intro n
  induction n with
  | zero => intro e st h; exact h
  | succ n ih =>
    intro e st h
    unfold fitFrom
    split
    · exact epochStep_inv cfg losses w e st h
    · exact ih (e + 1) (epochStep cfg st (losses e) (w e))
        (epochStep_inv cfg losses w e st h)

/-- C6: during Stage-1 training both validation-loss policies run on each
epoch: once validation loss has not improved on the plateau patience the
epoch multiplies the learning rate by the configured factor; and in the
shipped configuration the plateau patience 2 is shorter than the
stopping patience 4, the factor is 0.5, and whenever the early stopper
fires the weights returned by fit are the best-observed weights — those
of a minimum-validation-loss epoch — rather than the final epoch's. -/
theorem callbacks_lr_and_early_stop {W : Type} (cfg : FitConfig) :
    (∀ (st : CallbackState W) (loss : ℚ) (wEnd : W),
       improves cfg.lrDelta loss st.bestLR = false →
       cfg.lrPatience ≤ st.waitLR + 1 →
       (epochStep cfg st loss wEnd).lr = st.lr * cfg.factor) ∧
    (shippedFit.factor = 1 / 2 ∧ shippedFit.lrPatience = 2 ∧
     shippedFit.esPatience = 4 ∧ shippedFit.restore_best_weights = true ∧
     shippedFit.lrPatience < shippedFit.esPatience) ∧
    (∀ (losses : ℕ → ℚ) (w : ℕ → W) (w0 : W),
       (ensemble_fit cfg losses w).1.stop_training = true →
       cfg.restore_best_weights = true →
       ∃ k, BestObserved losses (ensemble_fit cfg losses w).2 k ∧
         final_weights cfg losses w w0 = w k) := by
  refine ⟨?_, ⟨rfl, rfl, rfl, rfl, by decide⟩, ?_⟩
  · intro st loss wEnd hno hpat
    rw [epochStep, earlyStopStep_lr]
    unfold lrPlateauStep
    rw [if_neg (by rw [hno]; exact Bool.false_ne_true), if_pos hpat]
  · intro losses w w0 hstop hrestore
    have hinv := fitFrom_inv cfg losses w cfg.epochs 0 (initState cfg)
      (Or.inl ⟨rfl, rfl, rfl, rfl⟩)
    rcases hinv with ⟨-, -, -, hsf⟩ | ⟨k, hk, -, hkW, hmin⟩
    · rw [show ensemble_fit cfg losses w =
        fitFrom cfg losses w cfg.epochs 0 (initState cfg) from rfl] at hstop
      rw [hsf] at hstop
      exact absurd hstop Bool.false_ne_true
    · refine ⟨k, ⟨hk, hmin⟩, ?_⟩
      unfold final_weights
      rw [show ensemble_fit cfg losses w =
        fitFrom cfg losses w cfg.epochs 0 (initState cfg) from rfl] at hstop ⊢
      rw [if_pos ⟨hstop, hrestore⟩, hkW]
      rfl

/-- Unfolding equation of the epoch loop with positive budget. -/
theorem fitFrom_succ {W : Type} (cfg : FitConfig) (losses : ℕ → ℚ)
    (w : ℕ → W) (n e : ℕ) (st : CallbackState W) :
    fitFrom cfg losses w (n + 1) e st =
      if (epochStep cfg st (losses e) (w e)).stop_training then
        (epochStep cfg st (losses e) (w e), e + 1)
      else fitFrom cfg losses w n (e + 1) (epochStep cfg st (losses e) (w e)) :=
  rfl

/-- On the demo run the first epoch improves and records its weights. -/
theorem demo_epoch0 :
    epochStep demoFit (initState demoFit) (demoLosses 0) 0 =
      ⟨1, some 1, some 0, 0, false, some 1, 0⟩ := by
  norm_num [epochStep, earlyStopStep, lrPlateauStep, initState, improves,
    demoFit, demoLosses]

/-- On the demo run the second epoch does not improve and fires the
early stopper. -/
theorem demo_epoch1 :
    epochStep demoFit ⟨1, some 1, some 0, 0, false, some 1, 0⟩
        (demoLosses 1) 1 =
      ⟨1 * (1 / 2), some 1, some 0, 1, true, some 1, 0⟩ := by
  norm_num [epochStep, earlyStopStep, lrPlateauStep, improves,
    demoFit, demoLosses]

/-- On the demo run fit stops early after two epochs. -/
theorem demo_run :
    ensemble_fit demoFit demoLosses (fun e => e) =
      (⟨1 * (1 / 2), some 1, some 0, 1, true, some 1, 0⟩, 2) := by
  show fitFrom demoFit demoLosses (fun e => e) 2 0 (initState demoFit) = _
  rw [show (2 : ℕ) = 1 + 1 from rfl, fitFrom_succ]
  rw [demo_epoch0, if_neg (by simp), fitFrom_succ]
  rw [demo_epoch1, if_pos (by simp)]

/-- Witness for C6: a concrete plateau state where the learning rate is
halved, and a concrete run whose loss history stops improving, so early
stopping fires and fit returns the epoch-0 (best) weights. -/
theorem callbacks_lr_and_early_stop_witness :
    ((improves demoFit.lrDelta 5 demoState.bestLR = false ∧
      demoFit.lrPatience ≤ demoState.waitLR + 1) ∧
     (epochStep demoFit demoState 5 7).lr = demoState.lr * demoFit.factor) ∧
    (((ensemble_fit demoFit demoLosses (fun e => e)).1.stop_training =
        true ∧
      demoFit.restore_best_weights = true) ∧
     ∃ k, BestObserved demoLosses
         (ensemble_fit demoFit demoLosses (fun e => e)).2 k ∧
       final_weights demoFit demoLosses (fun e => e) 99 = k) :=
  ⟨⟨⟨by norm_num [improves, demoFit, demoState], by decide⟩,
    (@callbacks_lr_and_early_stop ℕ demoFit).1 demoState 5 7
      (by norm_num [improves, demoFit, demoState]) (by decide)⟩,
   ⟨⟨by rw [demo_run], rfl⟩,
    (@callbacks_lr_and_early_stop ℕ demoFit).2.2 demoLosses (fun e => e) 99
      (by rw [demo_run]) rfl⟩⟩

/-- C10: in the shipped configuration the epoch budget is 1 and the
stopping patience is 4, so the early-stopping callback can never fire:
every Stage-1 run exhausts the budget (exactly one epoch runs, the
stop flag stays false) and the restore-best-weights branch of fit is
unreachable — the weights kept are the last (only) epoch's. -/
theorem shipped_early_stop_unreachable {W : Type} (losses : ℕ → ℚ)
    (w : ℕ → W) (w0 : W) :
    shippedFit.epochs = 1 ∧ shippedFit.esPatience = 4 ∧
    (ensemble_fit shippedFit losses w).1.stop_training = false ∧
    (ensemble_fit shippedFit losses w).2 = 1 ∧
    final_weights shippedFit losses w w0 = w 0 := by
  have hst2 : (epochStep shippedFit (initState shippedFit) (losses 0)
      (w 0)).stop_training = false := by
    unfold epochStep earlyStopStep lrPlateauStep initState
    simp [improves]
  have hfit : ensemble_fit shippedFit losses w =
      (epochStep shippedFit (initState shippedFit) (losses 0) (w 0), 1) := by
    show fitFrom shippedFit losses w 1 0 (initState shippedFit) = _
    unfold fitFrom
    rw [if_neg (by rw [hst2]; exact Bool.false_ne_true)]
    rfl
  refine ⟨rfl, rfl, ?_, ?_, ?_⟩
  · rw [hfit]; exact hst2
  · rw [hfit]
  · unfold final_weights
    rw [hfit]
    rw [if_neg (by rw [hst2]; simp)]
    rfl

/-- Length of a dense layer's output: one unit per weight row (with its
bias). -/
theorem denseP_length {α : Type} [Mul α] [AddCommMonoid α]
    (W : List (List α)) (b : List α) (act : α → α) (v : List α) :
    (denseP W b act v).length = min W.length b.length := by
  simp [denseP]

/-- The sigmoid is nonnegative. -/
theorem sigmoid_nonneg (x : ℝ) : 0 ≤ sigmoid x := by
  unfold sigmoid
  positivity

/-- The sigmoid is at most one. -/
theorem sigmoid_le_one (x : ℝ) : sigmoid x ≤ 1 := by
  unfold sigmoid
  rw [div_le_one (by positivity)]
  linarith [Real.exp_pos (-x)]

/-- Every entry of a sigmoid-activated dense layer is a sigmoid value. -/
theorem denseP_sigmoid_mem (W : List (List ℝ)) (b : List ℝ) (v : List ℝ)
    (p : ℝ) (hp : p ∈ denseP W b sigmoid v) : ∃ x, p = sigmoid x := by
  unfold denseP at hp
  obtain ⟨rb, -, hrb⟩ := List.mem_map.mp hp
  exact ⟨_, hrb.symm⟩

/-- C7: the fine-tuning head applies Dense(128, relu), Dropout, Dense(64,
relu), Dropout, then one sigmoid-activated output unit, so the returned
value is a probability in [0, 1]; dropout is the identity outside
training (and hence on the inference path); and the compiled training
objective is binary cross-entropy between prediction and label. -/
theorem head_forward_probability (bm rm : Encoder ℝ) (hw : HeadWeights)
    (training : Bool) (m1 m2 : List Bool) (i1 i2 i3 i4 : List ℕ)
    (hs : HeadShaped hw) :
    (modelNodes bm rm hw training m1 m2 i1 i2 i3 i4).hidden1.length =
      128 ∧
    (modelNodes bm rm hw training m1 m2 i1 i2 i3 i4).hidden2.length =
      64 ∧
    (modelNodes bm rm hw training m1 m2 i1 i2 i3
      i4).classifier_output.length = 1 ∧
    (∀ p ∈ (modelNodes bm rm hw training m1 m2 i1 i2 i3
        i4).classifier_output, 0 ≤ p ∧ p ≤ 1) ∧
    (∀ (rate : ℝ) (mask : List Bool) (v : List ℝ),
       dropout rate mask false v = v) ∧
    (modelNodes bm rm hw false m1 m2 i1 i2 i3 i4).dropped1 =
      (modelNodes bm rm hw false m1 m2 i1 i2 i3 i4).hidden1 ∧
    (modelNodes bm rm hw false m1 m2 i1 i2 i3 i4).dropped2 =
      (modelNodes bm rm hw false m1 m2 i1 i2 i3 i4).hidden2 ∧
    ensemble_compile.loss = KerasLoss.binaryCrossentropy ∧
    (∀ y p : ℝ, ensemble_compile.loss.denote y p =
       -(y * Real.log p + (1 - y) * Real.log (1 - p))) := by
  obtain ⟨hW1, hb1, hW2, hb2, hW3, hb3⟩ := hs
  refine ⟨?_, ?_, ?_, ?_, fun rate mask v => rfl, rfl, rfl, rfl,
    fun y p => rfl⟩
  · rw [show (modelNodes bm rm hw training m1 m2 i1 i2 i3 i4).hidden1 =
        denseP hw.W1 hw.b1 reluP
          (fuse (bert_branch bm i1 i2) (roberta_branch rm i3 i4))
      from rfl, denseP_length, hW1, hb1]
    exact min_self 128
  · rw [show (modelNodes bm rm hw training m1 m2 i1 i2 i3 i4).hidden2 =
        denseP hw.W2 hw.b2 reluP
          (modelNodes bm rm hw training m1 m2 i1 i2 i3 i4).dropped1
      from rfl, denseP_length, hW2, hb2]
    exact min_self 64
  · rw [show (modelNodes bm rm hw training m1 m2 i1 i2 i3
          i4).classifier_output =
        denseP hw.W3 hw.b3 sigmoid
          (modelNodes bm rm hw training m1 m2 i1 i2 i3 i4).dropped2
      from rfl, denseP_length, hW3, hb3]
    exact min_self 1
  · intro p hp
    obtain ⟨x, hx⟩ := denseP_sigmoid_mem hw.W3 hw.b3
      (modelNodes bm rm hw training m1 m2 i1 i2 i3 i4).dropped2 p hp
    rw [hx]
    exact ⟨sigmoid_nonneg x, sigmoid_le_one x⟩

/-- The demo head weights have the declared shapes. -/
theorem demoHead_shaped : HeadShaped demoHead :=
  ⟨List.length_replicate 128 _, List.length_replicate 128 _,
   List.length_replicate 64 _, List.length_replicate 64 _, rfl, rfl⟩

/-- Witness for C7: the concrete zero-weight head is well shaped, and on
a concrete input every classifier output lies in [0, 1]. -/
theorem head_forward_probability_witness :
    HeadShaped demoHead ∧
    (∀ p ∈ (modelNodes demoEncoderR demoEncoderR demoHead false [] []
        [] [] [] []).classifier_output, 0 ≤ p ∧ p ≤ 1) :=
  ⟨demoHead_shaped,
   (head_forward_probability demoEncoderR demoEncoderR demoHead false
     [] [] [] [] [] [] demoHead_shaped).2.2.2.1⟩

/-- C9: given frozen weights the embedding extractor is deterministic:
the combined-embedding node does not depend on the training flag or on
the dropout masks (no stochastic layer lies between the inputs and the
tap point), so any two forward passes on the same token ids and masks
agree, and repeated extractor calls return the same vector. -/
theorem extractor_deterministic (bm rm : Encoder ℝ) (hw : HeadWeights)
    (t1 t2 : Bool) (m11 m12 m21 m22 : List Bool) (i1 i2 i3 i4 : List ℕ) :
    (modelNodes bm rm hw t1 m11 m12 i1 i2 i3 i4).combined =
      (modelNodes bm rm hw t2 m21 m22 i1 i2 i3 i4).combined ∧
    embedding_extractor_output bm rm hw i1 i2 i3 i4 =
      (modelNodes bm rm hw t1 m11 m12 i1 i2 i3 i4).combined ∧
    embedding_extractor_output bm rm hw i1 i2 i3 i4 =
      embedding_extractor_output bm rm hw i1 i2 i3 i4 :=
  ⟨rfl, rfl, rfl⟩

/-- The fuel-bounded fitting loop never exceeds its fuel. -/
theorem iterateFit_le {S : Type} (update : S → S) (converged : S → Bool) :
    ∀ (n : ℕ) (s : S), (iterateFit update converged n s).2 ≤ n := by
  intro n
  induction n with
  | zero => intro s; exact Nat.le_refl 0
  | succ n ih =>
    intro s
    unfold iterateFit
    split
    · exact Nat.zero_le _
    · exact Nat.succ_le_succ (ih (update s))

/-- C8: the secondary classifier is an MLP with exactly two hidden
layers of sizes 128 and 64, fitted by iterative optimization capped at
max_iter = 1000 and seeded with random_state = 42; predict returns a
class in {0, 1}; and Stage-2 fitting consumes only the extracted joint
embeddings, never the raw tokens: datasets with equal embeddings yield
identical fitted classifiers. -/
theorem mlp_secondary_classifier {S : Type} :
    mlp_clf.hidden_layer_sizes = [128, 64] ∧
    mlp_clf.hidden_layer_sizes.length = 2 ∧
    mlp_clf.max_iter = 1000 ∧
    mlp_clf.random_state = some 42 ∧
    (∀ (update : S → S) (converged : S → Bool) (s0 : S),
       (mlpFit update converged s0).2 ≤ mlp_clf.max_iter) ∧
    (∀ (w : MLPWeights) (emb : List ℚ),
       mlpPredict w emb = 0 ∨ mlpPredict w emb = 1) ∧
    (∀ (fitAlgo : List (List ℚ) → List ℕ → S) (bm rm : Encoder ℚ)
       (rows1 rows2 : List (List ℕ × List ℕ × List ℕ × List ℕ))
       (y : List ℕ),
       train_embeddings bm rm rows1 = train_embeddings bm rm rows2 →
       stage2_fit fitAlgo bm rm rows1 y = stage2_fit fitAlgo bm rm rows2 y) := by
  refine ⟨rfl, rfl, rfl, rfl, ?_, ?_, ?_⟩
  · intro update converged s0
    exact iterateFit_le update converged mlp_clf.max_iter s0
  · intro w emb
    unfold mlpPredict
    split
    · right; rfl
    · left; rfl
  · intro fitAlgo bm rm rows1 rows2 y h
    unfold stage2_fit
    rw [h]

/-- Witness for C8: two different token datasets with equal extracted
embeddings (under a constant encoder) give the same Stage-2 result. -/
theorem mlp_secondary_classifier_witness :
    train_embeddings demoEncoderQ demoEncoderQ [([], [], [], [])] =
      train_embeddings demoEncoderQ demoEncoderQ [([5], [6], [7], [8])] ∧
    stage2_fit (fun em y => em.length + y.length) demoEncoderQ
        demoEncoderQ [([], [], [], [])] [0] =
      stage2_fit (fun em y => em.length + y.length) demoEncoderQ
        demoEncoderQ [([5], [6], [7], [8])] [0] :=
  ⟨rfl, (@mlp_secondary_classifier ℕ).2.2.2.2.2.2
      (fun em y => em.length + y.length) demoEncoderQ demoEncoderQ
      [([], [], [], [])] [([5], [6], [7], [8])] [0] rfl⟩

end Sarcasm
